import Mathlib

/-!
Verification of the core simulation of `src/src/components/MedievalRunner.tsx`
(the second, lane-switching variant of the component, whose `moveLeft` /
`moveRight` / `startGame` / `gameLoop` the claims reference).

Modelling conventions:
* JavaScript numbers are modelled as exact rationals (`ℚ`); all the constants
  of the source (0.6, 0.25, 0.015, 0.15, 0.00002, 1.5, 0.3, 0.2, 10, -40, ±2)
  are exact decimal literals.
* The renderer (`scene.add`/`scene.remove`, `renderer.render`, rotations,
  shadows, textures) is presentation-only and is not modelled; the gem bob
  `gem.position.y = 1.5 + Math.sin(Date.now()*0.003 + gem.position.z)*0.2`
  does feed the collection check, so the sine factor is taken from a per-tick
  oracle (`TickInput.bob`, a function of the gem's pre-motion depth).
* `Math.random()` draws are taken from the per-tick oracle `TickInput`.
* `setGameState(prev => ...)` updates are modelled as applied synchronously at
  the call site, merged into the single `Game` record (the React state fields
  `score`, `isPlaying`, `isGameOver`, `highScore` and the `gameRef` fields).
* `Game.reports` is a ghost counter, not a source field: it counts the
  game-over `setGameState` calls issued by the obstacle loop, so that
  "reported exactly once" claims can be stated.
* `Array.prototype.forEach` combined with `splice(index, 1)` inside the
  callback is modelled faithfully: removing the element at the current index
  shifts the array left, so the iteration's next step lands on the element
  *after* the shifted one — the immediate successor of a removed element is
  skipped for the rest of that tick (not moved, not checked).
* `player.position.z` is set to 5 by `initGame` and by `startGame` and never
  written elsewhere, so it is the constant `playerZ` rather than a field.
-/

/-- An active obstacle: `position.x` (lane offset), the `height` parameter of
its box geometry, and `position.z` (depth).  `position.y = height / 2` and the
box width are set by `createObstacle` but never read by the core checks, so
they are not carried. -/
structure Obstacle where
  x : ℚ
  height : ℚ
  z : ℚ
  deriving Repr, DecidableEq

/-- An active gem: `position.x`, `position.y` (rewritten by the bob each
tick), `position.z`. -/
structure Gem where
  x : ℚ
  y : ℚ
  z : ℚ
  deriving Repr, DecidableEq

/-- The merged game state: the React `GameState` fields (`score`, `highScore`,
`isPlaying`, `isGameOver`) together with the `gameRef.current` simulation
fields (`player.position.x/y`, `currentLane`, `isJumping`, `jumpVelocity`,
`speed`, `obstacles`, `gems`).  `reports` is a ghost counter of game-over
`setGameState` calls (see the header comment). -/
structure Game where
  playerX : ℚ
  playerY : ℚ
  currentLane : ℕ
  isJumping : Bool
  jumpVelocity : ℚ
  speed : ℚ
  score : ℤ
  highScore : ℤ
  isPlaying : Bool
  isGameOver : Bool
  obstacles : List Obstacle
  gems : List Gem
  reports : ℕ
  deriving Repr, DecidableEq

/-- `const lanes = [-2, 0, 2]`. -/
def lanes : List ℚ := [-2, 0, 2]

/-- `lanes[i]` (indices used by the source are always 0, 1 or 2). -/
def laneX (i : ℕ) : ℚ := lanes.getD i 0

/-- `player.position.z`: set to 5 at init and at every `startGame`, never
written elsewhere. -/
def playerZ : ℚ := 5

/-- The state after `initGame` populated `gameRef.current` (player at
`(0, 0.6, 5)`, `currentLane = 1`, `speed = 0.15`) with the initial React
state (`score = 0`, `highScore = 0`, not playing, not game over). -/
def initState : Game where
  playerX := 0
  playerY := 0.6
  currentLane := 1
  isJumping := false
  jumpVelocity := 0
  speed := 0.15
  score := 0
  highScore := 0
  isPlaying := false
  isGameOver := false
  obstacles := []
  gems := []
  reports := 0

/-- `jump()`: no-op when already jumping, else set `isJumping` and the initial
upward velocity 0.25. -/
def jump (s : Game) : Game :=
  if s.isJumping then s
  else { s with isJumping := true, jumpVelocity := 0.25 }

/-- `moveLeft()`: if `currentLane > 0`, decrement it and snap
`player.position.x` to `lanes[currentLane]`; otherwise do nothing. -/
def moveLeft (s : Game) : Game :=
  if s.currentLane > 0 then
    { s with currentLane := s.currentLane - 1
             playerX := laneX (s.currentLane - 1) }
  else s

/-- `moveRight()`: if `currentLane < 2`, increment it and snap
`player.position.x` to `lanes[currentLane]`; otherwise do nothing. -/
def moveRight (s : Game) : Game :=
  if s.currentLane < 2 then
    { s with currentLane := s.currentLane + 1
             playerX := laneX (s.currentLane + 1) }
  else s

/-- `startGame()`: clear both collections, reset the player position to
`(0, 0.6, 5)`, `speed` to 0.15, `score` to 0, `currentLane` to 1, and set the
React state to playing.  Note: `isJumping` and `jumpVelocity` are NOT written
by `startGame`, and `highScore` is kept by the `...prev` spread. -/
def startGame (s : Game) : Game :=
  { s with obstacles := []
           gems := []
           playerX := 0
           playerY := 0.6
           speed := 0.15
           score := 0
           currentLane := 1
           isPlaying := true
           isGameOver := false }

/-- The jump-physics block at the top of `gameLoop`: while jumping,
`y += jumpVelocity; jumpVelocity -= 0.015`, then clamp: if `y <= 0.6` set
`y = 0.6`, clear `isJumping`, zero `jumpVelocity`. -/
def physicsStep (s : Game) : Game :=
  if s.isJumping then
    let y := s.playerY + s.jumpVelocity
    let v := s.jumpVelocity - 0.015
    if y ≤ 0.6 then
      { s with playerY := 0.6, isJumping := false, jumpVelocity := 0 }
    else
      { s with playerY := y, jumpVelocity := v }
  else s

/-- `Math.abs` on the rationals (kernel-computable, unlike Mathlib's lattice
`|·|`; `rabs_eq_abs` below identifies the two). -/
def rabs (q : ℚ) : ℚ := if q < 0 then -q else q

/-- The collision condition of the obstacle loop, on the obstacle's position
after this tick's motion:
`Math.abs(obstacle.x - player.x) < 1 && Math.abs(obstacle.z - player.z) < 1 &&
 player.y < obstacle.height + 0.3`. -/
def hitsPlayer (px py : ℚ) (o : Obstacle) : Prop :=
  rabs (o.x - px) < 1 ∧ rabs (o.z - playerZ) < 1 ∧ py < o.height + 0.3

instance (px py : ℚ) (o : Obstacle) : Decidable (hitsPlayer px py o) := by
  unfold hitsPlayer; infer_instance

/-- The gem-collection condition, on the gem's position after this tick's
motion: `Math.abs(gem.x - player.x) < 1 && Math.abs(gem.z - player.z) < 1 &&
Math.abs(gem.y - player.y) < 1.5`. -/
def gemTaken (px py : ℚ) (g : Gem) : Prop :=
  rabs (g.x - px) < 1 ∧ rabs (g.z - playerZ) < 1 ∧ rabs (g.y - py) < 1.5

instance (px py : ℚ) (g : Gem) : Decidable (gemTaken px py g) := by
  unfold gemTaken; infer_instance

/-- The `obstacles.forEach` loop of `gameLoop`.  For each visited obstacle:
`position.z += speed`; if the collision condition holds, a game-over
`setGameState` is issued and the callback `return`s (which only skips the rest
of this callback, not the loop); otherwise, if `position.z > 10`, the obstacle
is spliced out — which shifts the array left, so the iteration skips the
obstacle that followed it.  Returns the surviving list (skipped obstacles keep
their stale, un-advanced position) and the number of game-over reports. -/
def obstaclesPass (px py speed : ℚ) : List Obstacle → List Obstacle × ℕ
  | [] => ([], 0)
  | o :: rest =>
    let oM : Obstacle := { o with z := o.z + speed }
    if hitsPlayer px py oM then
      -- collision: report game over, `return` (prune check skipped for `oM`)
      let r := obstaclesPass px py speed rest
      (oM :: r.1, r.2 + 1)
    else if oM.z > 10 then
      -- splice at the current index: the next element shifts here and the
      -- iteration's next step lands past it
      match rest with
      | [] => ([], 0)
      | skipped :: rest2 =>
        let r := obstaclesPass px py speed rest2
        (skipped :: r.1, r.2)
    else
      let r := obstaclesPass px py speed rest
      (oM :: r.1, r.2)

/-- The `gems.forEach` motion/collection/prune loop of `gameLoop`.  For each
visited gem: `position.z += speed`; if the collection condition holds, the gem
is spliced out and `score += 10`; then (no `return` in between) if
`position.z > 10` a second splice at the same index fires — after a collection
splice that second splice would remove the *following* gem, but a collected
gem has `|z - 5| < 1` so that branch is dead when the player sits at depth 5.
Each splice shifts the array, skipping the element that moved into the current
index.  Returns the surviving list and the number of gems collected. -/
def gemsPass (px py speed : ℚ) : List Gem → List Gem × ℕ
  | [] => ([], 0)
  | g :: rest =>
    let gM : Gem := { g with z := g.z + speed }
    if gemTaken px py gM then
      if gM.z > 10 then
        -- collected splice followed by the prune splice at the same index:
        -- the gem after `gM` is removed without being visited, and the one
        -- after that is skipped
        match rest with
        | [] => ([], 1)
        | _b :: rest2 =>
          match rest2 with
          | [] => ([], 1)
          | c :: rest3 =>
            let r := gemsPass px py speed rest3
            (c :: r.1, r.2 + 1)
      else
        -- collected splice only: the following gem is skipped
        match rest with
        | [] => ([], 1)
        | b :: rest2 =>
          let r := gemsPass px py speed rest2
          (b :: r.1, r.2 + 1)
    else if gM.z > 10 then
      -- prune splice: the following gem is skipped
      match rest with
      | [] => ([], 0)
      | b :: rest2 =>
        let r := gemsPass px py speed rest2
        (b :: r.1, r.2)
    else
      let r := gemsPass px py speed rest
      (gM :: r.1, r.2)

/-- The per-tick random draws and the gem-bob sine factor, supplied as an
oracle.  `spawnObstacle` stands for `Math.random() < 0.02`, `spawnGem` for
`Math.random() < 0.015`; the lanes are `Math.floor(Math.random() * 3)`;
`obstacleHeightDraw` is the `Math.random()` in
`height = 0.9 + Math.random() * 0.7`; `bob z` is
`Math.sin(Date.now() * 0.003 + z)`. -/
structure TickInput where
  bob : ℚ → ℚ
  spawnObstacle : Bool
  obstacleLane : Fin 3
  obstacleHeightDraw : ℚ
  spawnGem : Bool
  gemLane : Fin 3

/-- `createObstacle()`: push an obstacle at
`(lanes[rand 3], height / 2, -40)` with `height = 0.9 + rand * 0.7` (the box
width `1.2 + rand * 1.2` and `position.y` are never read by the core). -/
def createObstacle (inp : TickInput) (s : Game) : Game :=
  { s with obstacles :=
      s.obstacles ++
        [{ x := laneX inp.obstacleLane.val
           height := 0.9 + inp.obstacleHeightDraw * 0.7
           z := -40 }] }

/-- `createGem()`: push a gem at `(lanes[rand 3], 1.5, -40)` (its material
color draw is cosmetic and not carried). -/
def createGem (inp : TickInput) (s : Game) : Game :=
  { s with gems := s.gems ++ [{ x := laneX inp.gemLane.val, y := 1.5, z := -40 }] }

/-- One `gameLoop` invocation.  Early-returns when not playing; otherwise:
jump physics; the gem-bob `forEach` (rewrites every gem's `y` from its
pre-motion depth); the obstacle motion/collision/prune loop (its game-over
reports set `isPlaying := false`, `isGameOver := true`,
`highScore := max highScore score` — issuing the identical report `k` times
equals issuing it once, and the ghost `reports` counter records `k`); the gem
motion/collection/prune loop (`score += 10` per collection); the two spawn
draws; `speed += 0.00002`.  Rendering and the re-scheduling of the next frame
are presentation-only. -/
def gameLoop (inp : TickInput) (s : Game) : Game :=
  if s.isPlaying then
    let s1 := physicsStep s
    let bobbed := s1.gems.map fun g => { g with y := 1.5 + inp.bob g.z * 0.2 }
    let ro := obstaclesPass s1.playerX s1.playerY s1.speed s1.obstacles
    let s3 : Game :=
      { s1 with obstacles := ro.1
                isPlaying := if ro.2 = 0 then s1.isPlaying else false
                isGameOver := if ro.2 = 0 then s1.isGameOver else true
                highScore := if ro.2 = 0 then s1.highScore
                             else max s1.highScore s1.score
                reports := s1.reports + ro.2 }
    let rg := gemsPass s1.playerX s1.playerY s1.speed bobbed
    let s4 : Game := { s3 with gems := rg.1, score := s3.score + 10 * rg.2 }
    let s5 := if inp.spawnObstacle then createObstacle inp s4 else s4
    let s6 := if inp.spawnGem then createGem inp s5 else s5
    { s6 with speed := s6.speed + 0.00002 }
  else s

/-- The inputs the simulation reacts to: one frame tick (with its oracle), or
one of the handler-dispatched actions.  The key/click handlers gate `jump`,
`moveLeft`, `moveRight` on `isPlaying` and `startGame` on not playing, so an
`Act` here is a dispatched call of the corresponding source function. -/
inductive Act where
  | tick (inp : TickInput)
  | jumpA
  | moveLeftA
  | moveRightA
  | startA

/-- Apply one action. -/
def stepAct : Act → Game → Game
  | Act.tick inp => gameLoop inp
  | Act.jumpA => jump
  | Act.moveLeftA => moveLeft
  | Act.moveRightA => moveRight
  | Act.startA => startGame

/-- The state reached from `initState` by a sequence of actions. -/
def runActs (acts : List Act) : Game :=
  acts.foldl (fun s a => stepAct a s) initState

/-! Concrete fixtures used by the counterexample / failing-input theorems and
by the witnesses.  `inp0` is the quiet tick: no spawn draws succeed and the
bob sine factor is 0 (so every gem's `y` is rewritten to exactly 1.5). -/

/-- A tick oracle with no spawns and a zero bob sine factor. -/
def inp0 : TickInput where
  bob := fun _ => 0
  spawnObstacle := false
  obstacleLane := 0
  obstacleHeightDraw := 0
  spawnGem := false
  gemLane := 0

/-- A freshly started run with no entities. -/
def exPlaying : Game := { initState with isPlaying := true }

/-- Playing state whose first obstacle is about to be pruned
(`9.9 + 0.15 > 10`) while the second sits right on the player
(lane offset 0, depth 4.5, height 1, player grounded at `y = 0.6`). -/
def exObstacleSkip : Game :=
  { initState with
      isPlaying := true
      obstacles := [{ x := 0, height := 1, z := 9.9 },
                    { x := 0, height := 1, z := 4.5 }] }

/-- Playing state whose first gem is about to be pruned while the second (in
another lane, far from the player) still has the whole corridor to travel. -/
def exGemSkip : Game :=
  { initState with
      isPlaying := true
      gems := [{ x := 0, y := 1.5, z := 9.9 },
               { x := 2, y := 1.5, z := 0 }] }

/-- Playing state with two gems in the player's lane, both inside the
collection window this tick (depths 4.5 and 4.6, player at depth 5). -/
def exTwoGems : Game :=
  { initState with
      isPlaying := true
      gems := [{ x := 0, y := 1.5, z := 4.5 },
               { x := 0, y := 1.5, z := 4.6 }] }

/-- Playing state with two obstacles that both satisfy the collision
condition this tick (depths 4.4 and 4.6, both in the player's lane). -/
def exTwoHits : Game :=
  { initState with
      isPlaying := true
      obstacles := [{ x := 0, height := 1, z := 4.4 },
                    { x := 0, height := 1, z := 4.6 }] }

/-- A game-over state reached mid-jump: the run ended while the player was
airborne with upward velocity still left. -/
def exMidJump : Game :=
  { initState with
      isPlaying := false
      isGameOver := true
      isJumping := true
      jumpVelocity := 0.1
      playerY := 1.2
      score := 40
      highScore := 40 }

/-- A state in the leftmost lane. -/
def exLane0 : Game := { initState with currentLane := 0, playerX := -2 }

/-- A state in the rightmost lane. -/
def exLane2 : Game := { initState with currentLane := 2, playerX := 2 }

/-- An airborne state. -/
def exAir : Game :=
  { initState with isPlaying := true, isJumping := true
                   jumpVelocity := 0.1, playerY := 1.2 }

/-- The invariant maintained by every action from the initial state: the
player never sinks below ground level, the lane index stays in `[0, 2]` with
the horizontal position snapped to its lane offset, and the score is a
non-negative multiple of 10. -/
def GameInv (s : Game) : Prop :=
  0.6 ≤ s.playerY ∧ s.currentLane ≤ 2 ∧ s.playerX = laneX s.currentLane ∧
    0 ≤ s.score ∧ (10 : ℤ) ∣ s.score

/-! Theorems. -/

theorem rabs_eq_abs (q : ℚ) : rabs q = |q| := by
  unfold rabs
  rcases lt_or_le q 0 with h | h
  · simp [h, abs_of_neg h]
  · simp [not_lt.mpr h, abs_of_nonneg h]

theorem physicsStep_playerX (s : Game) : (physicsStep s).playerX = s.playerX := by
  unfold physicsStep; split <;> [skip; rfl]; dsimp only; split <;> rfl

theorem physicsStep_currentLane (s : Game) :
    (physicsStep s).currentLane = s.currentLane := by
  unfold physicsStep; split <;> [skip; rfl]; dsimp only; split <;> rfl

theorem physicsStep_speed (s : Game) : (physicsStep s).speed = s.speed := by
  unfold physicsStep; split <;> [skip; rfl]; dsimp only; split <;> rfl

theorem physicsStep_score (s : Game) : (physicsStep s).score = s.score := by
  unfold physicsStep; split <;> [skip; rfl]; dsimp only; split <;> rfl

theorem physicsStep_playerY_ge (s : Game) (h : 0.6 ≤ s.playerY) :
    0.6 ≤ (physicsStep s).playerY := by
  unfold physicsStep
  split
  · set y := s.playerY + s.jumpVelocity with hy
    by_cases hle : y ≤ 0.6
    · simp [hle]
    · simp only [hle, if_false]
      exact le_of_not_le hle
  · exact h

theorem createObstacle_fields (inp : TickInput) (s : Game) :
    (createObstacle inp s).playerX = s.playerX ∧
    (createObstacle inp s).playerY = s.playerY ∧
    (createObstacle inp s).currentLane = s.currentLane ∧
    (createObstacle inp s).speed = s.speed ∧
    (createObstacle inp s).score = s.score := by
  refine ⟨rfl, rfl, rfl, rfl, rfl⟩

theorem createGem_fields (inp : TickInput) (s : Game) :
    (createGem inp s).playerX = s.playerX ∧
    (createGem inp s).playerY = s.playerY ∧
    (createGem inp s).currentLane = s.currentLane ∧
    (createGem inp s).speed = s.speed ∧
    (createGem inp s).score = s.score := by
  refine ⟨rfl, rfl, rfl, rfl, rfl⟩

theorem gameLoop_playerY (inp : TickInput) (s : Game) :
    (gameLoop inp s).playerY =
      if s.isPlaying then (physicsStep s).playerY else s.playerY := by
  unfold gameLoop
  split
  · rename_i h
    simp only [h, if_true]
    split <;> split <;> rfl
  · rename_i h
    simp only [eq_false_of_ne_true h, Bool.false_eq_true, if_false]

theorem gameLoop_playerX (inp : TickInput) (s : Game) :
    (gameLoop inp s).playerX = s.playerX := by
  unfold gameLoop
  split
  · rw [show s.playerX = (physicsStep s).playerX from (physicsStep_playerX s).symm]
    split <;> split <;> rfl
  · rfl

theorem gameLoop_currentLane (inp : TickInput) (s : Game) :
    (gameLoop inp s).currentLane = s.currentLane := by
  unfold gameLoop
  split
  · rw [show s.currentLane = (physicsStep s).currentLane from
      (physicsStep_currentLane s).symm]
    split <;> split <;> rfl
  · rfl

theorem gameLoop_speed (inp : TickInput) (s : Game) :
    (gameLoop inp s).speed =
      if s.isPlaying then s.speed + 0.00002 else s.speed := by
  unfold gameLoop
  split
  · rename_i h
    simp only [h, if_true]
    rw [show s.speed = (physicsStep s).speed from (physicsStep_speed s).symm]
    split <;> split <;> rfl
  · rename_i h
    simp only [eq_false_of_ne_true h, Bool.false_eq_true, if_false]

theorem gameLoop_score_shape (inp : TickInput) (s : Game) :
    ∃ c : ℕ, (gameLoop inp s).score = s.score + 10 * c := by
  unfold gameLoop
  split
  · rw [show s.score = (physicsStep s).score from (physicsStep_score s).symm]
    refine ⟨(gemsPass (physicsStep s).playerX (physicsStep s).playerY
      (physicsStep s).speed ((physicsStep s).gems.map
        fun g => { g with y := 1.5 + inp.bob g.z * 0.2 })).2, ?_⟩
    split <;> split <;> rfl
  · exact ⟨0, by simp⟩

theorem laneX_one : laneX 1 = 0 := rfl

theorem stepAct_inv (a : Act) (s : Game) (h : GameInv s) : GameInv (stepAct a s) := by
  obtain ⟨hy, hlane, hx, hs0, hs10⟩ := h
  cases a with
  | tick inp =>
    show GameInv (gameLoop inp s)
    refine ⟨?_, ?_, ?_, ?_, ?_⟩
    · rw [gameLoop_playerY]
      split
      · exact physicsStep_playerY_ge s hy
      · exact hy
    · rw [gameLoop_currentLane]; exact hlane
    · rw [gameLoop_playerX, gameLoop_currentLane]; exact hx
    · obtain ⟨c, hc⟩ := gameLoop_score_shape inp s
      rw [hc]; positivity
    · obtain ⟨c, hc⟩ := gameLoop_score_shape inp s
      rw [hc]; exact dvd_add hs10 ⟨(c : ℤ), rfl⟩
  | jumpA =>
    show GameInv (jump s)
    unfold jump
    split
    · exact ⟨hy, hlane, hx, hs0, hs10⟩
    · exact ⟨hy, hlane, hx, hs0, hs10⟩
  | moveLeftA =>
    show GameInv (moveLeft s)
    unfold moveLeft
    split
    · exact ⟨hy, le_trans (Nat.sub_le _ _) hlane, rfl, hs0, hs10⟩
    · exact ⟨hy, hlane, hx, hs0, hs10⟩
  | moveRightA =>
    show GameInv (moveRight s)
    unfold moveRight
    split
    · rename_i hlt
      exact ⟨hy, Nat.succ_le_of_lt hlt, rfl, hs0, hs10⟩
    · exact ⟨hy, hlane, hx, hs0, hs10⟩
  | startA =>
    show GameInv (startGame s)
    exact ⟨le_refl _, by norm_num [startGame], by simp [startGame, laneX_one],
      le_refl _, ⟨0, rfl⟩⟩

theorem foldl_stepAct_inv (acts : List Act) :
    ∀ s : Game, GameInv s → GameInv (acts.foldl (fun t a => stepAct a t) s) := by
  induction acts with
  | nil => intro s h; exact h
  | cons a rest ih => intro s h; exact ih _ (stepAct_inv a s h)

theorem initState_inv : GameInv initState :=
  ⟨le_refl _, by norm_num [initState], rfl, le_refl _, ⟨0, rfl⟩⟩

theorem runActs_inv (acts : List Act) : GameInv (runActs acts) :=
  foldl_stepAct_inv acts initState initState_inv

theorem gameLoop_not_playing (inp : TickInput) (s : Game) (h : s.isPlaying = false) :
    gameLoop inp s = s := by
  unfold gameLoop; simp [h]

/-- C4: for every sequence of ticks and input events from the initial state,
the player's vertical position is at least the ground level 0.6 at the end of
every tick and after every input event. -/
theorem playerY_ge_groundLevel (acts : List Act) :
    (0.6 : ℚ) ≤ (runActs acts).playerY :=
  (runActs_inv acts).1

/-- C7: every tick of a Playing state adds exactly 0.00002 to `speed`; every
Start/Restart sets it to the base 0.15; and no action other than
Start/Restart ever decreases it. -/
theorem scrollSpeed_ramp :
    (∀ (inp : TickInput) (s : Game), s.isPlaying = true →
        (gameLoop inp s).speed = s.speed + 0.00002) ∧
    (∀ s : Game, (startGame s).speed = 0.15) ∧
    (∀ (a : Act) (s : Game), a ≠ Act.startA → s.speed ≤ (stepAct a s).speed) := by
  refine ⟨?_, fun s => rfl, ?_⟩
  · intro inp s h
    rw [gameLoop_speed]
    simp [h]
  · intro a s ha
    cases a with
    | tick inp =>
      show s.speed ≤ (gameLoop inp s).speed
      rw [gameLoop_speed]
      split
      · norm_num
      · exact le_refl _
    | jumpA =>
      show s.speed ≤ (jump s).speed
      unfold jump; split <;> exact le_refl _
    | moveLeftA =>
      show s.speed ≤ (moveLeft s).speed
      unfold moveLeft; split <;> exact le_refl _
    | moveRightA =>
      show s.speed ≤ (moveRight s).speed
      unfold moveRight; split <;> exact le_refl _
    | startA => exact absurd rfl ha

/-- Witness for C7: applied at the quiet tick from a fresh Playing state, and
at a `jump` action. -/
theorem scrollSpeed_ramp_witness :
    (gameLoop inp0 exPlaying).speed = exPlaying.speed + 0.00002 ∧
    exPlaying.speed ≤ (stepAct Act.jumpA exPlaying).speed :=
  ⟨scrollSpeed_ramp.1 inp0 exPlaying rfl,
   scrollSpeed_ramp.2.2 Act.jumpA exPlaying nofun⟩

/-- C8: over every action sequence from the initial state the lane index stays
in `[0, 2]` and the player's horizontal position is exactly the lane offset of
the current lane; `moveLeft` at lane 0 and `moveRight` at lane 2 change
nothing at all. -/
theorem lane_clamped_and_snapped :
    (∀ acts : List Act, (runActs acts).currentLane ≤ 2 ∧
        (runActs acts).playerX = laneX (runActs acts).currentLane) ∧
    (∀ s : Game, s.currentLane = 0 → moveLeft s = s) ∧
    (∀ s : Game, s.currentLane = 2 → moveRight s = s) := by
  refine ⟨fun acts => ⟨(runActs_inv acts).2.1, (runActs_inv acts).2.2.1⟩, ?_, ?_⟩
  · intro s h; unfold moveLeft; simp [h]
  · intro s h; unfold moveRight; simp [h]

/-- Witness for C8: the boundary no-ops applied at concrete boundary states. -/
theorem lane_clamped_and_snapped_witness :
    moveLeft exLane0 = exLane0 ∧ moveRight exLane2 = exLane2 :=
  ⟨lane_clamped_and_snapped.2.1 exLane0 rfl,
   lane_clamped_and_snapped.2.2 exLane2 rfl⟩

/-- C9: `jump()` while airborne changes nothing at all (in particular neither
`jumpVelocity` nor `playerY` nor the airborne flag); while grounded it sets
`jumpVelocity` to 0.25 and marks the player airborne (leaving the position
unchanged). -/
theorem jump_airborne_noop :
    (∀ s : Game, s.isJumping = true → jump s = s) ∧
    (∀ s : Game, s.isJumping = false →
        (jump s).isJumping = true ∧ (jump s).jumpVelocity = 0.25 ∧
        (jump s).playerY = s.playerY) := by
  constructor
  · intro s h; unfold jump; simp [h]
  · intro s h; unfold jump; simp [h]

/-- Witness for C9: applied at a concrete airborne state and at the grounded
initial state. -/
theorem jump_airborne_noop_witness :
    jump exAir = exAir ∧
    ((jump initState).isJumping = true ∧
      (jump initState).jumpVelocity = 0.25 ∧
      (jump initState).playerY = initState.playerY) :=
  ⟨jump_airborne_noop.1 exAir rfl, jump_airborne_noop.2 initState rfl⟩

/-- C10: in every reachable state the score is a non-negative multiple of 10;
a tick changes it only by `10 *` (number of gems collected that tick), the
other inputs leave it unchanged, and Start/Restart sets it to 0. -/
theorem score_nonneg_multiple_of_ten :
    (∀ acts : List Act,
        0 ≤ (runActs acts).score ∧ (10 : ℤ) ∣ (runActs acts).score) ∧
    (∀ (inp : TickInput) (s : Game), ∃ c : ℕ,
        (gameLoop inp s).score = s.score + 10 * c) ∧
    (∀ s : Game, (jump s).score = s.score ∧ (moveLeft s).score = s.score ∧
        (moveRight s).score = s.score ∧ (startGame s).score = 0) := by
  refine ⟨fun acts => ⟨(runActs_inv acts).2.2.2.1, (runActs_inv acts).2.2.2.2⟩,
    gameLoop_score_shape, ?_⟩
  intro s
  refine ⟨?_, ?_, ?_, rfl⟩
  · unfold jump; split <;> rfl
  · unfold moveLeft; split <;> rfl
  · unfold moveRight; split <;> rfl

/-- C1: FAILS on the code.  In `exObstacleSkip` the second obstacle satisfies
the collision condition (both at its stale depth 4.5 and at the depth it
would have after this tick's motion), yet the tick produces no GameOver, no
report, and leaves the run Playing: the first obstacle is pruned by
`splice` inside the `forEach`, which shifts the array and skips the
qualifying obstacle for the whole tick (it is not even moved). -/
theorem qualifying_obstacle_no_gameOver :
    hitsPlayer exObstacleSkip.playerX exObstacleSkip.playerY
      { x := 0, height := 1, z := 4.5 } ∧
    hitsPlayer exObstacleSkip.playerX exObstacleSkip.playerY
      { x := 0, height := 1, z := 4.5 + exObstacleSkip.speed } ∧
    ({ x := 0, height := 1, z := 4.5 } : Obstacle) ∈ exObstacleSkip.obstacles ∧
    (gameLoop inp0 exObstacleSkip).isGameOver = false ∧
    (gameLoop inp0 exObstacleSkip).isPlaying = true ∧
    (gameLoop inp0 exObstacleSkip).reports = 0 ∧
    (gameLoop inp0 exObstacleSkip).obstacles =
      [{ x := 0, height := 1, z := 4.5 }] := by
  refine ⟨?_, ?_, ?_, ?_, ?_, ?_, ?_⟩
  · norm_num [hitsPlayer, rabs, playerZ, exObstacleSkip, initState]
  · norm_num [hitsPlayer, rabs, playerZ, exObstacleSkip, initState]
  · simp [exObstacleSkip, initState]
  · norm_num [gameLoop, physicsStep, obstaclesPass, gemsPass, hitsPlayer,
      gemTaken, rabs, playerZ, exObstacleSkip, initState, inp0]
  · norm_num [gameLoop, physicsStep, obstaclesPass, gemsPass, hitsPlayer,
      gemTaken, rabs, playerZ, exObstacleSkip, initState, inp0]
  · norm_num [gameLoop, physicsStep, obstaclesPass, gemsPass, hitsPlayer,
      gemTaken, rabs, playerZ, exObstacleSkip, initState, inp0]
  · norm_num [gameLoop, physicsStep, obstaclesPass, gemsPass, hitsPlayer,
      gemTaken, rabs, playerZ, exObstacleSkip, initState, inp0]

/-- C2: FAILS on the code (the no-skip half of the claim).  In `exGemSkip`
the first gem crosses the pass-through threshold and is spliced out, which
shifts the array inside the `forEach`: the following gem is skipped for the
whole tick — its depth stays 0 instead of advancing to 0.15 and it gets no
collection/prune check this tick. -/
theorem pruned_gem_skips_successor :
    (gameLoop inp0 exGemSkip).gems = [{ x := 2, y := 1.5, z := 0 }] ∧
    (0 : ℚ) + exGemSkip.speed ≠ 0 := by
  constructor
  · norm_num [gameLoop, physicsStep, obstaclesPass, gemsPass, hitsPlayer,
      gemTaken, rabs, playerZ, exGemSkip, initState, inp0]
  · norm_num [exGemSkip, initState]

/-- C3: FAILS on the code.  In `exTwoGems` both gems satisfy the collection
condition this tick (after the bob write and this tick's motion), but only
the first is collected (`score` rises by 10, not 20): its `splice` shifts the
array and the `forEach` skips the second gem, which stays in the collection,
un-moved. -/
theorem simultaneous_gem_missed :
    gemTaken exTwoGems.playerX exTwoGems.playerY
      { x := 0, y := 1.5, z := 4.5 + exTwoGems.speed } ∧
    gemTaken exTwoGems.playerX exTwoGems.playerY
      { x := 0, y := 1.5, z := 4.6 + exTwoGems.speed } ∧
    (gameLoop inp0 exTwoGems).score = 10 ∧
    (gameLoop inp0 exTwoGems).gems = [{ x := 0, y := 1.5, z := 4.6 }] := by
  refine ⟨?_, ?_, ?_, ?_⟩
  · norm_num [gemTaken, rabs, playerZ, exTwoGems, initState]
  · norm_num [gemTaken, rabs, playerZ, exTwoGems, initState]
  · norm_num [gameLoop, physicsStep, obstaclesPass, gemsPass, hitsPlayer,
      gemTaken, rabs, playerZ, exTwoGems, initState, inp0]
  · norm_num [gameLoop, physicsStep, obstaclesPass, gemsPass, hitsPlayer,
      gemTaken, rabs, playerZ, exTwoGems, initState, inp0]

/-- C6: FAILS on the code.  In `exTwoHits` both obstacles satisfy the
collision condition in the same tick, and the game-over `setGameState` is
issued once per qualifying obstacle — twice, not once — because the `return`
inside the `forEach` callback only ends that callback, not the loop.  The
resulting state is the same as for a single report, and once the run has left
Playing a further tick changes nothing, so no later tick reports again. -/
theorem gameOver_reported_twice :
    hitsPlayer exTwoHits.playerX exTwoHits.playerY
      { x := 0, height := 1, z := 4.4 + exTwoHits.speed } ∧
    hitsPlayer exTwoHits.playerX exTwoHits.playerY
      { x := 0, height := 1, z := 4.6 + exTwoHits.speed } ∧
    (gameLoop inp0 exTwoHits).reports = 2 ∧
    (gameLoop inp0 exTwoHits).isGameOver = true ∧
    (gameLoop inp0 exTwoHits).isPlaying = false ∧
    gameLoop inp0 (gameLoop inp0 exTwoHits) = gameLoop inp0 exTwoHits := by
  have hnp : (gameLoop inp0 exTwoHits).isPlaying = false := by
    norm_num [gameLoop, physicsStep, obstaclesPass, gemsPass, hitsPlayer,
      gemTaken, rabs, playerZ, exTwoHits, initState, inp0]
  refine ⟨?_, ?_, ?_, ?_, hnp, gameLoop_not_playing inp0 _ hnp⟩
  · norm_num [hitsPlayer, rabs, playerZ, exTwoHits, initState]
  · norm_num [hitsPlayer, rabs, playerZ, exTwoHits, initState]
  · norm_num [gameLoop, physicsStep, obstaclesPass, gemsPass, hitsPlayer,
      gemTaken, rabs, playerZ, exTwoHits, initState, inp0]
  · norm_num [gameLoop, physicsStep, obstaclesPass, gemsPass, hitsPlayer,
      gemTaken, rabs, playerZ, exTwoHits, initState, inp0]

/-- C5 counterexample: `startGame` called in a GameOver state reached
mid-jump does NOT reset the player to non-airborne — `isJumping` stays true
and `jumpVelocity` keeps its old value, contradicting the claim that every
Start/Restart resets the player to not jumping with zero vertical
velocity. -/
theorem startGame_keeps_airborne :
    exMidJump.isGameOver = true ∧
    (startGame exMidJump).isJumping = true ∧
    (startGame exMidJump).jumpVelocity = 0.1 :=
  ⟨rfl, rfl, rfl⟩

/-- C5 as amended: every Start/Restart resets score to 0, speed to the base
0.15, empties both collections, resets the player to the default lane (1,
horizontal position 0) and default vertical position 0.6, enters Playing, and
leaves `highScore` unchanged — but `isJumping` and `jumpVelocity` are NOT
reset and keep their prior values. -/
theorem startGame_resets (s : Game) :
    (startGame s).score = 0 ∧ (startGame s).speed = 0.15 ∧
    (startGame s).obstacles = [] ∧ (startGame s).gems = [] ∧
    (startGame s).currentLane = 1 ∧ (startGame s).playerX = 0 ∧
    (startGame s).playerY = 0.6 ∧ (startGame s).isPlaying = true ∧
    (startGame s).isGameOver = false ∧ (startGame s).highScore = s.highScore ∧
    (startGame s).isJumping = s.isJumping ∧
    (startGame s).jumpVelocity = s.jumpVelocity :=
  ⟨rfl, rfl, rfl, rfl, rfl, rfl, rfl, rfl, rfl, rfl, rfl, rfl⟩
